import Mathlib

/-!
Verification of the cashbook backend's ledger, filtering, permission and
default-cashbook logic, via a shallow embedding of the relevant code in
src/books (models.py, serializers.py, views.py, report_views.py).

Conventions of the embedding:
* monetary amounts are exact fixed-point decimals (2 fractional digits) in the
  source; they are modelled as integers (a whole number of hundredths), which
  is exact for all additions and subtractions performed by the code;
* dates are modelled as integer day ordinals, datetimes as natural numbers;
* uuid identifiers are modelled as natural numbers;
* Django querysets over an in-memory table are modelled as lists, with
  queryset filters becoming list filters in the order the code applies them.
-/

namespace CashbookApp

/-- Transaction direction, from models.py Transaction.TYPE_CHOICES:
IN (Cash In) or OUT (Cash Out). -/
inductive TxnType
  | IN
  | OUT
deriving DecidableEq, Repr

/-- A Transaction row, from models.py class Transaction.  The Django field
named type is called ttype here (type is reserved in Lean); the id primary
key is omitted because no computation below reads it. -/
structure Txn where
  cashbook : Nat
  ttype : TxnType
  amount : Int
  remark : String
  category : Option Nat
  party : Option Nat
  payment_mode : Option Nat
  created_by : Nat
  created_at : Nat
  transaction_date : Int
  transaction_time : Nat
deriving DecidableEq, Repr

/-- A transaction together with the running balance attached to it by the
ledger scan (views.py list sets txn.running_balance; report_views.py
_get_report_data emits a dict carrying running_balance). -/
structure Row where
  txn : Txn
  running_balance : Int
deriving DecidableEq, Repr

/-- The running-balance loop of TransactionViewSet.list (views.py lines
166-178): starting from the given balance, add the amount for IN, subtract
it for OUT, and attach the post-update balance to each transaction. -/
def listScan (running_balance : Int) : List Txn → List Row
  | [] => []
  | txn :: rest =>
    let b := match txn.ttype with
      | .IN => running_balance + txn.amount
      | .OUT => running_balance - txn.amount
    ⟨txn, b⟩ :: listScan b rest

/-- transactions_with_balance of TransactionViewSet.list: the scan started
at running_balance = 0 over the ascending-ordered transactions. -/
def transactions_with_balance (l : List Txn) : List Row := listScan 0 l

/-- The list endpoint reverses the annotated list to show newest first
(views.py line 181). -/
def listEndpointRows (l : List Txn) : List Row := (transactions_with_balance l).reverse

/-- Accumulator of ReportsViewSet._get_report_data (report_views.py lines
56-93): running_balance, total_in, total_out, and the emitted rows. -/
structure ReportState where
  running_balance : Int := 0
  total_in : Int := 0
  total_out : Int := 0
  rows : List Row := []
deriving DecidableEq, Repr

/-- One iteration of the _get_report_data loop: an IN transaction adds its
amount to the running balance and to total_in, an OUT transaction subtracts
from the balance and adds to total_out; the row appended carries the
post-update running balance. -/
def processTxn (s : ReportState) (txn : Txn) : ReportState :=
  match txn.ttype with
  | .IN =>
      { running_balance := s.running_balance + txn.amount
        total_in := s.total_in + txn.amount
        total_out := s.total_out
        rows := s.rows ++ [⟨txn, s.running_balance + txn.amount⟩] }
  | .OUT =>
      { running_balance := s.running_balance - txn.amount
        total_in := s.total_in
        total_out := s.total_out + txn.amount
        rows := s.rows ++ [⟨txn, s.running_balance - txn.amount⟩] }

/-- _get_report_data over the ascending-ordered transaction list, starting
from all-zero accumulators. -/
def get_report_data (l : List Txn) : ReportState := l.foldl processTxn {}

/-- net_balance returned by _get_report_data: total_in - total_out. -/
def net_balance (l : List Txn) : Int :=
  (get_report_data l).total_in - (get_report_data l).total_out

/-- The amount a transaction contributes as cash in (the spec formula's
IN amounts: the amount for IN transactions, 0 otherwise). -/
def amountIn (t : Txn) : Int :=
  match t.ttype with
  | .IN => t.amount
  | .OUT => 0

/-- The amount a transaction contributes as cash out. -/
def amountOut (t : Txn) : Int :=
  match t.ttype with
  | .OUT => t.amount
  | .IN => 0

/-- Sum of the IN amounts of a transaction list (the right-hand side of the
spec property P1). -/
def sumIn (l : List Txn) : Int := (l.map amountIn).sum

/-- Sum of the OUT amounts of a transaction list. -/
def sumOut (l : List Txn) : Int := (l.map amountOut).sum

/-- The ordering key used by the ledger endpoints:
order_by(transaction_date, created_at), ascending, ties broken by the
original (insertion) order of the list. -/
def keyLe (a b : Txn) : Prop :=
  a.transaction_date < b.transaction_date ∨
    (a.transaction_date = b.transaction_date ∧ a.created_at ≤ b.created_at)

instance : DecidableRel keyLe := fun a b => by
  unfold keyLe; infer_instance

/-- A transaction list is sorted ascending by (transaction_date, created_at,
insertion order) when every earlier element's key is at most every later
element's key; equal keys keep their list (insertion) order. -/
def sortedAsc (l : List Txn) : Prop := l.Pairwise keyLe

instance (l : List Txn) : Decidable (sortedAsc l) :=
  List.instDecidablePairwise l

theorem listScan_length (rb : Int) (l : List Txn) :
    (listScan rb l).length = l.length := by
  induction l generalizing rb with
  | nil => rfl
  | cons t ts ih => simp [listScan, ih]

/-- The balance attached to the transaction at index k of the scan started at
rb is rb plus the IN-minus-OUT total of the first k+1 transactions. -/
theorem listScan_get_running_balance (rb : Int) (l : List Txn) (k : Nat)
    (hk : k < (listScan rb l).length) :
    ((listScan rb l).get ⟨k, hk⟩).running_balance
      = rb + sumIn (l.take (k + 1)) - sumOut (l.take (k + 1)) := by
  induction l generalizing rb k with
  | nil => simp [listScan] at hk
  | cons t ts ih =>
    cases k with
    | zero =>
      cases h : t.ttype <;>
        simp [listScan, sumIn, sumOut, amountIn, amountOut, h]
    | succ k =>
      cases h : t.ttype <;>
        · simp only [listScan, h, List.get_cons_succ, ih, List.take_succ_cons,
            sumIn, sumOut, amountIn, amountOut, List.map_cons, List.sum_cons]
          simp [sumIn, sumOut, amountIn, amountOut, h]
          ring

/-- The final value of the running_balance loop variable of
TransactionViewSet.list after the whole scan. -/
def listScanFinal (running_balance : Int) : List Txn → Int
  | [] => running_balance
  | txn :: rest =>
    listScanFinal
      (match txn.ttype with
        | .IN => running_balance + txn.amount
        | .OUT => running_balance - txn.amount) rest

/-- total_in of the Summary endpoint (views.py line 410): the aggregate sum
of the amounts of the IN transactions of the filtered set. -/
def summary_total_in (l : List Txn) : Int :=
  ((l.filter (fun t => t.ttype == .IN)).map (fun t => t.amount)).sum

/-- total_out of the Summary endpoint (views.py line 411). -/
def summary_total_out (l : List Txn) : Int :=
  ((l.filter (fun t => t.ttype == .OUT)).map (fun t => t.amount)).sum

/-- net_balance of the Summary endpoint (views.py line 412). -/
def summary_net_balance (l : List Txn) : Int :=
  summary_total_in l - summary_total_out l

theorem foldl_total_in (s : ReportState) (l : List Txn) :
    (l.foldl processTxn s).total_in = s.total_in + sumIn l := by
  induction l generalizing s with
  | nil => simp [sumIn]
  | cons t ts ih =>
    cases h : t.ttype <;>
      simp [List.foldl_cons, processTxn, h, ih, sumIn, amountIn, add_assoc]

theorem foldl_total_out (s : ReportState) (l : List Txn) :
    (l.foldl processTxn s).total_out = s.total_out + sumOut l := by
  induction l generalizing s with
  | nil => simp [sumOut]
  | cons t ts ih =>
    cases h : t.ttype <;>
      simp [List.foldl_cons, processTxn, h, ih, sumOut, amountOut, add_assoc]

theorem foldl_running_balance (s : ReportState) (l : List Txn) :
    (l.foldl processTxn s).running_balance
      = s.running_balance + sumIn l - sumOut l := by
  induction l generalizing s with
  | nil => simp [sumIn, sumOut]
  | cons t ts ih =>
    cases h : t.ttype <;>
      · simp [List.foldl_cons, processTxn, h, ih, sumIn, sumOut, amountIn, amountOut]
        ring

theorem listScanFinal_eq (rb : Int) (l : List Txn) :
    listScanFinal rb l = rb + sumIn l - sumOut l := by
  induction l generalizing rb with
  | nil => simp [listScanFinal, sumIn, sumOut]
  | cons t ts ih =>
    cases h : t.ttype <;>
      · simp [listScanFinal, h, ih, sumIn, sumOut, amountIn, amountOut]
        ring

theorem summary_total_in_eq (l : List Txn) : summary_total_in l = sumIn l := by
  induction l with
  | nil => rfl
  | cons t ts ih =>
    rw [summary_total_in, sumIn] at ih ⊢
    rw [List.filter_cons, List.map_cons, List.sum_cons]
    cases h : t.ttype <;> simp [h, amountIn, ih]

theorem summary_total_out_eq (l : List Txn) : summary_total_out l = sumOut l := by
  induction l with
  | nil => rfl
  | cons t ts ih =>
    rw [summary_total_out, sumOut] at ih ⊢
    rw [List.filter_cons, List.map_cons, List.sum_cons]
    cases h : t.ttype <;> simp [h, amountOut, ih]

/-- The rows accumulated by the report loop from any starting state are the
starting rows followed by the list scan started at the starting balance. -/
theorem report_rows_foldl (s : ReportState) (l : List Txn) :
    (l.foldl processTxn s).rows = s.rows ++ listScan s.running_balance l := by
  induction l generalizing s with
  | nil => simp [listScan]
  | cons t ts ih =>
    cases h : t.ttype <;>
      simp [List.foldl_cons, processTxn, h, ih, listScan]

/-- The rows of _get_report_data coincide with transactions_with_balance of
the list endpoint. -/
theorem report_rows_eq (l : List Txn) :
    (get_report_data l).rows = transactions_with_balance l := by
  simpa [get_report_data, transactions_with_balance] using
    report_rows_foldl {} l

/-- C1: for every transaction sequence sorted ascending by
(transaction_date, created_at, insertion order), the running_balance
annotated on the k-th transaction (0-based) by the ledger scan equals the sum
of the IN amounts of transactions 0..k minus the sum of the OUT amounts of
transactions 0..k; and the report computation annotates the same rows. -/
theorem c1_running_balance_correct (l : List Txn) (_hs : sortedAsc l) (k : Nat)
    (hk : k < (transactions_with_balance l).length) :
    ((transactions_with_balance l).get ⟨k, hk⟩).running_balance
      = sumIn (l.take (k + 1)) - sumOut (l.take (k + 1)) ∧
    (get_report_data l).rows = transactions_with_balance l := by
  refine ⟨?_, report_rows_eq l⟩
  have h := listScan_get_running_balance 0 l k hk
  simpa [transactions_with_balance] using h

/-- retrieve of ReportsViewSet (report_views.py lines 95-105): compute the
report data, then reverse the transactions for display (newest first) while
the totals keep the values computed by the ascending scan. -/
def retrieveReport (l : List Txn) : ReportState :=
  let d := get_report_data l
  { d with rows := d.rows.reverse }

/-- C2: for every non-empty transaction set processed in one pass,
total_in - total_out equals net_balance, net_balance equals the final
running_balance of the report scan and of the list-endpoint scan, and the
aggregate-based Summary endpoint totals agree with the single-pass scan
totals over the same set. -/
theorem c2_totals_consistency (l : List Txn) (_h : l ≠ []) :
    (get_report_data l).total_in - (get_report_data l).total_out = net_balance l ∧
    net_balance l = (get_report_data l).running_balance ∧
    net_balance l = listScanFinal 0 l ∧
    summary_total_in l = (get_report_data l).total_in ∧
    summary_total_out l = (get_report_data l).total_out ∧
    summary_net_balance l = net_balance l := by
  have hin : (get_report_data l).total_in = sumIn l := by
    simpa using foldl_total_in {} l
  have hout : (get_report_data l).total_out = sumOut l := by
    simpa using foldl_total_out {} l
  have hrb : (get_report_data l).running_balance = sumIn l - sumOut l := by
    simpa using foldl_running_balance {} l
  refine ⟨rfl, ?_, ?_, ?_, ?_, ?_⟩
  · rw [net_balance, hin, hout, hrb]
  · rw [net_balance, hin, hout, listScanFinal_eq]; ring
  · rw [summary_total_in_eq, hin]
  · rw [summary_total_out_eq, hout]
  · rw [summary_net_balance, summary_total_in_eq, summary_total_out_eq,
      net_balance, hin, hout]

/-- C5: reversing the annotated sequence for newest-first display leaves
every row's running_balance (and the totals and net balance) unchanged:
the reversed report has the same totals, its k-th row is exactly the
(n-1-k)-th row of the ascending scan, and the display list of the list
endpoint holds exactly the rows of the ascending scan. -/
theorem c5_reverse_preserves_rows (l : List Txn) (k : Nat)
    (hk : k < (retrieveReport l).rows.length) :
    (retrieveReport l).total_in = (get_report_data l).total_in ∧
    (retrieveReport l).total_out = (get_report_data l).total_out ∧
    (retrieveReport l).running_balance = (get_report_data l).running_balance ∧
    (retrieveReport l).rows.get ⟨k, hk⟩
      = (get_report_data l).rows.get
          ⟨(get_report_data l).rows.length - 1 - k, by
            simp only [retrieveReport, List.length_reverse] at hk
            omega⟩ ∧
    (∀ r, r ∈ listEndpointRows l ↔ r ∈ transactions_with_balance l) := by
  refine ⟨rfl, rfl, rfl, ?_, ?_⟩
  · rw [List.get_eq_getElem, List.get_eq_getElem]
    simp [retrieveReport, List.getElem_reverse]
  · intro r
    simp [listEndpointRows, List.mem_reverse]

/-- The three transactions of the spec's Scenario A: IN 100 on day 1, then
OUT 40 and IN 10 on day 2 (insertion order IN after OUT); amounts are in
hundredths. -/
def txnA : Txn := ⟨1, .IN, 10000, "sale", none, none, none, 1, 1, 1, 540⟩

def txnB : Txn := ⟨1, .OUT, 4000, "rent", none, none, none, 1, 2, 2, 540⟩

def txnC : Txn := ⟨1, .IN, 1000, "tip", none, none, none, 1, 3, 2, 600⟩

def scenarioTxns : List Txn := [txnA, txnB, txnC]

/-- Witness for C1 at the Scenario A transactions and k = 1. -/
theorem c1_running_balance_correct_witness :
    ((transactions_with_balance scenarioTxns).get ⟨1, by decide⟩).running_balance
      = sumIn (scenarioTxns.take 2) - sumOut (scenarioTxns.take 2) ∧
    (get_report_data scenarioTxns).rows = transactions_with_balance scenarioTxns :=
  c1_running_balance_correct scenarioTxns (by decide) 1 (by decide)

/-- Witness for C2 at the Scenario A transactions. -/
theorem c2_totals_consistency_witness :
    (get_report_data scenarioTxns).total_in - (get_report_data scenarioTxns).total_out
        = net_balance scenarioTxns ∧
    net_balance scenarioTxns = (get_report_data scenarioTxns).running_balance ∧
    net_balance scenarioTxns = listScanFinal 0 scenarioTxns ∧
    summary_total_in scenarioTxns = (get_report_data scenarioTxns).total_in ∧
    summary_total_out scenarioTxns = (get_report_data scenarioTxns).total_out ∧
    summary_net_balance scenarioTxns = net_balance scenarioTxns :=
  c2_totals_consistency scenarioTxns (by decide)

/-- Witness for C5 at the Scenario A transactions and k = 0. -/
theorem c5_reverse_preserves_rows_witness :
    (retrieveReport scenarioTxns).total_in = (get_report_data scenarioTxns).total_in ∧
    (retrieveReport scenarioTxns).total_out = (get_report_data scenarioTxns).total_out ∧
    (retrieveReport scenarioTxns).running_balance
        = (get_report_data scenarioTxns).running_balance ∧
    (retrieveReport scenarioTxns).rows.get ⟨0, by decide⟩
      = (get_report_data scenarioTxns).rows.get
          ⟨(get_report_data scenarioTxns).rows.length - 1 - 0, by decide⟩ ∧
    (∀ r, r ∈ listEndpointRows scenarioTxns ↔ r ∈ transactions_with_balance scenarioTxns) :=
  c5_reverse_preserves_rows scenarioTxns 0 (by decide)

/-- A Member row, from models.py class Member: the membership of a user in a
business, carrying a role string out of ROLE_CHOICES
(ADMIN, EDITOR, VIEWER; default VIEWER).  The business reference is omitted
because the views below look members up inside one business. -/
structure MemberRec where
  id : Nat
  user : Nat
  role : String
deriving DecidableEq, Repr

/-- Parse of the member query-parameter text to an id: digits-only text
parses to a number, anything else fails (the ValueError case of the source,
with uuid identifiers modelled as numbers). -/
def parseId (s : String) : Option Nat :=
  if s.data ≠ [] ∧ s.data.all Char.isDigit then
    some (s.data.foldl (fun n c => n * 10 + (c.toNat - 48)) 0)
  else none

/-- The member-filter lookup Member.objects.get(id=member_id) of views.py
lines 143-147 and 390-395: the member id arrives as a query-parameter
string; a parse failure (ValueError) or an absent row (Member.DoesNotExist)
both give none. -/
def memberGet (members : List MemberRec) (member_id : String) : Option MemberRec :=
  match parseId member_id with
  | none => none
  | some n => members.find? (fun m => m.id == n)

/-- Query parameters of TransactionViewSet.get_queryset that the date and
member filtering reads (views.py lines 121-155); start_date and end_date are
modelled already parsed to day ordinals. -/
structure TxnQueryParams where
  duration : Option String
  member : Option String
  start_date : Option Int
  end_date : Option Int
deriving DecidableEq, Repr

/-- The duration elif-chain shared by TransactionViewSet.get_queryset
(views.py lines 121-138) and SummaryView.get (lines 353-370): TODAY keeps
transactions dated today, LAST_7_DAYS and LAST_30_DAYS keep dates greater
than or equal to today minus 7 resp. 30 days, THIS_MONTH keeps dates in the
calendar month of today (the calendar-month predicate is an argument,
sameMonth, because dates are modelled as day ordinals), and any other value
(ALL_TIME or absent) applies no filter. -/
def applyDurationFilter (sameMonth : Int → Int → Bool) (today : Int)
    (duration : Option String) (q : List Txn) : List Txn :=
  if duration == some "TODAY" then
    q.filter (fun t => t.transaction_date == today)
  else if duration == some "LAST_7_DAYS" then
    q.filter (fun t => decide (today - 7 ≤ t.transaction_date))
  else if duration == some "LAST_30_DAYS" then
    q.filter (fun t => decide (today - 30 ≤ t.transaction_date))
  else if duration == some "THIS_MONTH" then
    q.filter (fun t => sameMonth t.transaction_date today)
  else q

/-- TransactionViewSet.get_queryset (views.py lines 103-157), from the point
where the access-scoped, cashbook-filtered base queryset txns is fixed:
apply the duration filter, then the member filter (an unparsable or unknown
member id empties the queryset), then the optional start_date / end_date
bounds, each by AND on the running queryset. -/
def getQuerysetFilters (sameMonth : Int → Int → Bool) (today : Int)
    (members : List MemberRec) (p : TxnQueryParams) (txns : List Txn) :
    List Txn :=
  let q := applyDurationFilter sameMonth today p.duration txns
  let q := match p.member with
    | some mid =>
      match memberGet members mid with
      | some m => q.filter (fun t => t.created_by == m.user)
      | none => []
    | none => q
  let q := match p.start_date with
    | some s => q.filter (fun t => decide (s ≤ t.transaction_date))
    | none => q
  match p.end_date with
  | some e => q.filter (fun t => decide (t.transaction_date ≤ e))
  | none => q

/-- The string form of a transaction type as stored by Django
(TYPE_CHOICES keys). -/
def ttypeStr : TxnType → String
  | .IN => "IN"
  | .OUT => "OUT"

/-- The decimal text of an amount held in hundredths, as str of a 2-place
Decimal renders it (used by the amount__icontains search filter). -/
def amountText (a : Int) : String :=
  let sign := if a < 0 then "-" else ""
  let n := a.natAbs
  let frac := n % 100
  let fracStr := (if frac < 10 then "0" else "") ++ toString frac
  sign ++ toString (n / 100) ++ "." ++ fracStr

/-- Case-insensitive substring test, modelling the Django icontains
lookup. -/
def icontains (hay needle : String) : Bool :=
  let h := hay.toLower.data
  let n := needle.toLower.data
  (List.range (h.length + 1)).any (fun i => n.isPrefixOf (h.drop i))

/-- Query parameters of SummaryView.get (views.py lines 353-407). -/
structure SummaryQueryParams where
  duration : Option String
  ttype : Option String
  category : Option Nat
  party : Option Nat
  member : Option String
  payment_mode : Option Nat
  search : Option String
deriving DecidableEq, Repr

/-- SummaryView.get (views.py lines 332-418), from the point where the
cashbook's transactions txns are selected: apply the duration, type,
category, party, member (an unparsable or unknown member id empties the
queryset), payment-mode and search filters in the order of the code, then
return (total_in, total_out, net_balance) by aggregate sums over the
filtered set. -/
def summaryGet (sameMonth : Int → Int → Bool) (today : Int)
    (members : List MemberRec) (p : SummaryQueryParams) (txns : List Txn) :
    Int × Int × Int :=
  let q := applyDurationFilter sameMonth today p.duration txns
  let q := match p.ttype with
    | some ty => q.filter (fun t => ttypeStr t.ttype == ty)
    | none => q
  let q := match p.category with
    | some c => q.filter (fun t => t.category == some c)
    | none => q
  let q := match p.party with
    | some pid => q.filter (fun t => t.party == some pid)
    | none => q
  let q := match p.member with
    | some mid =>
      match memberGet members mid with
      | some m => q.filter (fun t => t.created_by == m.user)
      | none => []
    | none => q
  let q := match p.payment_mode with
    | some pm => q.filter (fun t => t.payment_mode == some pm)
    | none => q
  let q := match p.search with
    | some s =>
      q.filter (fun t => icontains t.remark s || icontains (amountText t.amount) s)
    | none => q
  (summary_total_in q, summary_total_out q, summary_total_in q - summary_total_out q)

/-- C6: when both a LAST_7_DAYS duration shorthand and an explicit
start_date are supplied, a transaction is kept iff it meets both lower
bounds (the predicates compose by AND), so with a start_date at least 7
days old the effective window is exactly the last-7-days window. -/
theorem c6_duration_and_range_intersect (sameMonth : Int → Int → Bool)
    (today s : Int) (members : List MemberRec) (txns : List Txn)
    (hs : s ≤ today - 7) :
    (∀ t, t ∈ getQuerysetFilters sameMonth today members
        ⟨some "LAST_7_DAYS", none, some s, none⟩ txns
      ↔ t ∈ txns ∧ today - 7 ≤ t.transaction_date ∧ s ≤ t.transaction_date) ∧
    getQuerysetFilters sameMonth today members
        ⟨some "LAST_7_DAYS", none, some s, none⟩ txns
      = txns.filter (fun t => decide (today - 7 ≤ t.transaction_date)) := by
  have hred : getQuerysetFilters sameMonth today members
      ⟨some "LAST_7_DAYS", none, some s, none⟩ txns
      = (txns.filter (fun t => decide (today - 7 ≤ t.transaction_date))).filter
          (fun t => decide (s ≤ t.transaction_date)) := rfl
  constructor
  · intro t
    rw [hred]
    simp only [List.mem_filter, decide_eq_true_eq]
    tauto
  · rw [hred, List.filter_filter]
    apply List.filter_congr
    intro t _
    by_cases h7 : today - 7 ≤ t.transaction_date <;>
      by_cases hsd : s ≤ t.transaction_date
    · simp [h7, hsd]
    · omega
    · simp [h7, hsd]
    · simp [h7, hsd]

/-- C7: a member filter naming an unparsable or non-existent member
identifier makes the transaction list query return no rows and the Summary
endpoint return zero totals, instead of erroring. -/
theorem c7_invalid_member_empty (sameMonth : Int → Int → Bool) (today : Int)
    (members : List MemberRec) (mid : String)
    (hm : memberGet members mid = none)
    (dur : Option String) (sd ed : Option Int)
    (p : SummaryQueryParams) (hp : p.member = some mid) (txns txns2 : List Txn) :
    getQuerysetFilters sameMonth today members ⟨dur, some mid, sd, ed⟩ txns = [] ∧
    summaryGet sameMonth today members p txns2 = (0, 0, 0) := by
  constructor
  · simp only [getQuerysetFilters, hm]
    cases sd <;> cases ed <;> simp
  · obtain ⟨d2, ty2, c2, pa2, m2, pm2, se2⟩ := p
    simp only at hp
    subst hp
    simp only [summaryGet, hm]
    cases pm2 <;> cases se2 <;>
      simp [summary_total_in, summary_total_out]

/-- A one-member table used by concrete instances below. -/
def sampleMembers : List MemberRec := [⟨5, 7, "ADMIN"⟩]

/-- Witness for C6 at today = 9, start_date = 0 and the Scenario A
transactions. -/
theorem c6_duration_and_range_intersect_witness :
    (∀ t, t ∈ getQuerysetFilters (fun _ _ => false) 9 []
        ⟨some "LAST_7_DAYS", none, some 0, none⟩ scenarioTxns
      ↔ t ∈ scenarioTxns ∧ (9:Int) - 7 ≤ t.transaction_date ∧
          (0:Int) ≤ t.transaction_date) ∧
    getQuerysetFilters (fun _ _ => false) 9 []
        ⟨some "LAST_7_DAYS", none, some 0, none⟩ scenarioTxns
      = scenarioTxns.filter (fun t => decide ((9:Int) - 7 ≤ t.transaction_date)) :=
  c6_duration_and_range_intersect (fun _ _ => false) 9 0 [] scenarioTxns (by decide)

/-- Witness for C7: member id 99 is absent from the member table, and the
list query and the summary totals over the Scenario A transactions come
back empty / zero. -/
theorem c7_invalid_member_empty_witness :
    getQuerysetFilters (fun _ _ => false) 9 sampleMembers
        ⟨none, some "99", none, none⟩ scenarioTxns = [] ∧
    summaryGet (fun _ _ => false) 9 sampleMembers
        ⟨none, none, none, none, some "99", none, none⟩ scenarioTxns = (0, 0, 0) :=
  c7_invalid_member_empty (fun _ _ => false) 9 sampleMembers "99" (by decide)
    none none none ⟨none, none, none, none, some "99", none, none⟩ rfl
    scenarioTxns scenarioTxns

/-- Outcome of a write hook: ok models reaching serializer.save or
instance.delete, denied models raise PermissionDenied with the given
message, notFound models the object being outside the caller's queryset
(a not-found response before any hook runs). -/
inductive WriteOutcome
  | ok
  | denied (msg : String)
  | notFound
deriving DecidableEq, Repr

/-- TransactionViewSet.perform_create (views.py lines 192-208): the caller's
ownership of the cashbook's business and the role of the caller's member row
(none when the caller has no member row) decide the outcome: no access when
neither owner nor member, denied for a member row with role VIEWER,
otherwise the serializer saves. -/
def txnPerformCreate (is_owner : Bool) (member : Option String) : WriteOutcome :=
  if !is_owner && member.isNone then
    .denied "You do not have access to this cashbook."
  else if member == some "VIEWER" then
    .denied "Viewers cannot create transactions."
  else .ok

/-- TransactionViewSet.perform_update (views.py lines 210-225): same checks
as perform_create, with the viewer message about editing. -/
def txnPerformUpdate (is_owner : Bool) (member : Option String) : WriteOutcome :=
  if !is_owner && member.isNone then
    .denied "You do not have access to this cashbook."
  else if member == some "VIEWER" then
    .denied "Viewers cannot edit transactions."
  else .ok

/-- TransactionViewSet.perform_destroy (views.py lines 227-242): no access
when neither owner nor member, denied whenever a member row exists whose
role differs from ADMIN, otherwise the instance is deleted. -/
def txnPerformDestroy (is_owner : Bool) (member : Option String) : WriteOutcome :=
  if !is_owner && member.isNone then
    .denied "You do not have access to this cashbook."
  else if member.isSome && member != some "ADMIN" then
    .denied "Only admins can delete transactions."
  else .ok

/-- CategoryViewSet.perform_create (views.py lines 252-268): denied when the
caller is neither owner nor member of the target business, denied for a
member whose role is VIEWER, otherwise saved. -/
def categoryPerformCreate (is_owner : Bool) (member : Option String) : WriteOutcome :=
  if !is_owner && member.isNone then
    .denied "You do not have access to this business."
  else match member with
    | some role =>
      if role == "VIEWER" then .denied "Viewers cannot create categories."
      else .ok
    | none => .ok

/-- PartyViewSet.perform_create (views.py lines 278-293): identical checks
with the parties message. -/
def partyPerformCreate (is_owner : Bool) (member : Option String) : WriteOutcome :=
  if !is_owner && member.isNone then
    .denied "You do not have access to this business."
  else match member with
    | some role =>
      if role == "VIEWER" then .denied "Viewers cannot create parties."
      else .ok
    | none => .ok

/-- PaymentModeViewSet.perform_create (views.py lines 303-318): identical
checks with the payment-modes message. -/
def paymentModePerformCreate (is_owner : Bool) (member : Option String) : WriteOutcome :=
  if !is_owner && member.isNone then
    .denied "You do not have access to this business."
  else match member with
    | some role =>
      if role == "VIEWER" then .denied "Viewers cannot create payment modes."
      else .ok
    | none => .ok

/-- Update on CategoryViewSet, PartyViewSet and PaymentModeViewSet: none of
the three overrides perform_update (views.py lines 244-318), so DRF's
default update saves with no role check at all; the only guard is queryset
visibility (the object's business is owned by the caller or has the caller
as a member of any role, per the get_queryset union). -/
def unrestrictedPerformUpdate (is_owner : Bool) (member : Option String) : WriteOutcome :=
  if is_owner || member.isSome then .ok else .notFound

/-- The body returned by CashbookViewSet.user_role for a caller with
access. -/
structure RoleResponse where
  role : String
  can_create : Bool
  can_edit : Bool
  can_delete : Bool
deriving DecidableEq, Repr

/-- CashbookViewSet.user_role (views.py lines 69-92): the owner gets role
owner with every capability; a member gets their stored role string with
capabilities computed by comparing that string against the lowercase
literals admin and editor (exactly as the code writes them); no member row
gives a 403, modelled as none. -/
def userRole (is_owner : Bool) (member : Option String) : Option RoleResponse :=
  if is_owner then some ⟨"owner", true, true, true⟩
  else match member with
    | some role =>
      some ⟨role, role == "admin" || role == "editor",
        role == "admin" || role == "editor", role == "admin"⟩
    | none => none

/-- C3 counterexample: a non-owner member whose role is VIEWER updates a
Category (equally a Party or PaymentMode): there is no perform_update
override on those viewsets, so the update reaches the default save and is
not rejected, contradicting the claim that viewer update on Category,
Party and PaymentMode is rejected with PermissionDenied. -/
theorem c3_viewer_category_update_not_rejected :
    unrestrictedPerformUpdate false (some "VIEWER") = WriteOutcome.ok := rfl

/-- C3 (amended): a VIEWER member is rejected for create on Category, Party,
PaymentMode and Transaction and for update of a Transaction, but an update
of a Category, Party or PaymentMode by a VIEWER member is saved unchecked;
an EDITOR member may create and update a Transaction but never delete one;
a Transaction delete succeeds only when the caller owns the business or the
caller's member row has role ADMIN. -/
theorem c3_role_gating (o : Bool) (m : Option String) :
    txnPerformCreate o (some "VIEWER")
        = .denied "Viewers cannot create transactions." ∧
    txnPerformUpdate o (some "VIEWER")
        = .denied "Viewers cannot edit transactions." ∧
    categoryPerformCreate o (some "VIEWER")
        = .denied "Viewers cannot create categories." ∧
    partyPerformCreate o (some "VIEWER")
        = .denied "Viewers cannot create parties." ∧
    paymentModePerformCreate o (some "VIEWER")
        = .denied "Viewers cannot create payment modes." ∧
    unrestrictedPerformUpdate false (some "VIEWER") = .ok ∧
    txnPerformCreate false (some "EDITOR") = .ok ∧
    txnPerformUpdate false (some "EDITOR") = .ok ∧
    txnPerformDestroy o (some "EDITOR")
        = .denied "Only admins can delete transactions." ∧
    (txnPerformDestroy o m = .ok → o = true ∨ m = some "ADMIN") := by
  refine ⟨?_, ?_, ?_, ?_, ?_, rfl, rfl, rfl, ?_, ?_⟩
  · cases o <;> rfl
  · cases o <;> rfl
  · cases o <;> rfl
  · cases o <;> rfl
  · cases o <;> rfl
  · cases o <;> rfl
  · intro h
    cases o with
    | true => exact Or.inl rfl
    | false =>
      cases m with
      | none => simp [txnPerformDestroy] at h
      | some r =>
        by_cases hr : r = "ADMIN"
        · exact Or.inr (by rw [hr])
        · exfalso
          simp [txnPerformDestroy, hr] at h

/-- Witness for C3 (amended) at o = false, m = some ADMIN. -/
theorem c3_role_gating_witness :
    txnPerformCreate false (some "VIEWER")
        = .denied "Viewers cannot create transactions." ∧
    txnPerformUpdate false (some "VIEWER")
        = .denied "Viewers cannot edit transactions." ∧
    categoryPerformCreate false (some "VIEWER")
        = .denied "Viewers cannot create categories." ∧
    partyPerformCreate false (some "VIEWER")
        = .denied "Viewers cannot create parties." ∧
    paymentModePerformCreate false (some "VIEWER")
        = .denied "Viewers cannot create payment modes." ∧
    unrestrictedPerformUpdate false (some "VIEWER") = .ok ∧
    txnPerformCreate false (some "EDITOR") = .ok ∧
    txnPerformUpdate false (some "EDITOR") = .ok ∧
    txnPerformDestroy false (some "EDITOR")
        = .denied "Only admins can delete transactions." ∧
    (txnPerformDestroy false (some "ADMIN") = .ok
        → false = true ∨ some "ADMIN" = some "ADMIN") :=
  c3_role_gating false (some "ADMIN")

/-- C9: at a member whose stored role is ADMIN (the exact uppercase value of
Member.ROLE_CHOICES), user_role reports can_create, can_edit and can_delete
all false, because it compares against the lowercase literals admin and
editor, while perform_destroy and perform_create accept exactly this member:
the endpoint's capabilities contradict the role gating the claim states. -/
theorem c9_user_role_admin_inconsistent :
    userRole false (some "ADMIN") = some ⟨"ADMIN", false, false, false⟩ ∧
    txnPerformDestroy false (some "ADMIN") = .ok ∧
    txnPerformCreate false (some "ADMIN") = .ok ∧
    txnPerformUpdate false (some "ADMIN") = .ok := by
  refine ⟨?_, rfl, rfl, rfl⟩
  simp [userRole]

/-- An update request body for a Transaction: each field the request may
supply, optionally present.  The serializer's writable fields are cashbook,
type, amount, remark, category, party and payment_mode; created_by,
created_at, transaction_date, transaction_time and running_balance are
declared read_only (serializers.py lines 52-57), so supplied values for
them are dropped. -/
structure TxnUpdateRequest where
  cashbook : Option Nat
  ttype : Option TxnType
  amount : Option Int
  remark : Option String
  category : Option (Option Nat)
  party : Option (Option Nat)
  payment_mode : Option (Option Nat)
  created_by : Option Nat
  created_at : Option Nat
  transaction_date : Option Int
  transaction_time : Option Nat
deriving DecidableEq, Repr

/-- ModelSerializer update through TransactionSerializer: every supplied
writable field replaces the instance's value; read-only fields are never
taken from the request. -/
def transactionSerializerUpdate (inst : Txn) (req : TxnUpdateRequest) : Txn :=
  { inst with
    cashbook := req.cashbook.getD inst.cashbook
    ttype := req.ttype.getD inst.ttype
    amount := req.amount.getD inst.amount
    remark := req.remark.getD inst.remark
    category := req.category.getD inst.category
    party := req.party.getD inst.party
    payment_mode := req.payment_mode.getD inst.payment_mode }

/-- C8: a successful Transaction update leaves transaction_date,
transaction_time, created_by and created_at exactly as they were at
creation, whatever values the request supplies for them. -/
theorem c8_update_keeps_creation_fields (o : Bool) (m : Option String)
    (_hok : txnPerformUpdate o m = .ok) (inst : Txn) (req : TxnUpdateRequest) :
    (transactionSerializerUpdate inst req).transaction_date
        = inst.transaction_date ∧
    (transactionSerializerUpdate inst req).transaction_time
        = inst.transaction_time ∧
    (transactionSerializerUpdate inst req).created_by = inst.created_by ∧
    (transactionSerializerUpdate inst req).created_at = inst.created_at :=
  ⟨rfl, rfl, rfl, rfl⟩

/-- Witness for C8: the owner updates the first scenario transaction,
supplying new values for every field including the read-only ones. -/
theorem c8_update_keeps_creation_fields_witness :
    (transactionSerializerUpdate txnA
        ⟨some 2, some .OUT, some 500, some "edited", some (some 3),
          some (some 4), some (some 5), some 9, some 9, some 9, some 9⟩
      ).transaction_date = txnA.transaction_date ∧
    (transactionSerializerUpdate txnA
        ⟨some 2, some .OUT, some 500, some "edited", some (some 3),
          some (some 4), some (some 5), some 9, some 9, some 9, some 9⟩
      ).transaction_time = txnA.transaction_time ∧
    (transactionSerializerUpdate txnA
        ⟨some 2, some .OUT, some 500, some "edited", some (some 3),
          some (some 4), some (some 5), some 9, some 9, some 9, some 9⟩
      ).created_by = txnA.created_by ∧
    (transactionSerializerUpdate txnA
        ⟨some 2, some .OUT, some 500, some "edited", some (some 3),
          some (some 4), some (some 5), some 9, some 9, some 9, some 9⟩
      ).created_at = txnA.created_at :=
  c8_update_keeps_creation_fields true none rfl txnA
    ⟨some 2, some .OUT, some 500, some "edited", some (some 3),
      some (some 4), some (some 5), some 9, some 9, some 9, some 9⟩

/-- A Cashbook row of one business, from models.py class Cashbook: the id
primary key and the is_default flag (model default False); name, business
and timestamps are omitted because the default-toggle acts inside one
business and reads neither. -/
structure Cashbook where
  id : Nat
  is_default : Bool
deriving DecidableEq, Repr

/-- The state transitions of the claim: creation of a cashbook through
CashbookSerializer (whose read_only_fields is only created_at, leaving
is_default writable from the request body, serializers.py lines 10-14), and
the set-default action. -/
inductive CashbookEvent
  | create (c : Cashbook)
  | setDefault (pk : Nat)
deriving DecidableEq, Repr

/-- The bulk update of views.py line 64:
Cashbook.objects.filter(business=...).update(is_default=False). -/
def clearFlag (c : Cashbook) : Cashbook := { c with is_default := false }

/-- The save of views.py lines 65-66 applied to the row with the target pk:
cashbook.is_default = True; cashbook.save(). -/
def setFlag (pk : Nat) (c : Cashbook) : Cashbook :=
  if c.id == pk then { c with is_default := true } else c

/-- CashbookViewSet.set_default (views.py lines 60-67): get_object finds the
cashbook by pk (a missing pk is a 404 that changes nothing); then every
cashbook of the business gets is_default cleared, and the target is saved
with is_default true. -/
def setDefaultOp (st : List Cashbook) (pk : Nat) : List Cashbook :=
  if st.any (fun c => c.id == pk) then (st.map clearFlag).map (setFlag pk)
  else st

/-- Creation inserts the new row; the database enforces primary-key
uniqueness, so an insert whose id already exists fails and changes
nothing. -/
def createOp (st : List Cashbook) (c : Cashbook) : List Cashbook :=
  if st.any (fun x => x.id == c.id) then st else st ++ [c]

def stepCashbook (st : List Cashbook) : CashbookEvent → List Cashbook
  | .create c => createOp st c
  | .setDefault pk => setDefaultOp st pk

/-- A sequence of creations and set-default calls against one business. -/
def runCashbook (st : List Cashbook) (es : List CashbookEvent) : List Cashbook :=
  es.foldl stepCashbook st

/-- How many cashbooks of the business are flagged default. -/
def defaultCount (st : List Cashbook) : Nat :=
  (st.filter (fun c => c.is_default)).length

/-- Every creation in the event list leaves is_default at the model default
False. -/
def createsNonDefault (es : List CashbookEvent) : Bool :=
  es.all fun e =>
    match e with
    | .create c => !c.is_default
    | .setDefault _ => true

/-- C4 counterexample: is_default is a writable serializer field, so two
creations that both supply is_default = true leave two default cashbooks in
the business while setDefault was never called — refuting both the
at-most-one invariant over creation transitions and the zero-if-never-called
clause. -/
theorem c4_two_defaults_by_creation :
    defaultCount (runCashbook []
      [CashbookEvent.create ⟨1, true⟩, CashbookEvent.create ⟨2, true⟩]) = 2 := rfl

theorem setFlag_clearFlag_is_default (pk : Nat) (c : Cashbook) :
    (setFlag pk (clearFlag c)).is_default = (c.id == pk) := by
  rw [setFlag, clearFlag]
  by_cases h : c.id = pk <;> simp [h]

theorem setFlag_clearFlag_id (pk : Nat) (c : Cashbook) :
    (setFlag pk (clearFlag c)).id = c.id := by
  rw [setFlag, clearFlag]
  by_cases h : c.id = pk <;> simp [h]

/-- After clearing every flag and setting the target's, the rows flagged
default are exactly the rows whose id is the target pk. -/
theorem clear_set_count (st : List Cashbook) (pk : Nat) :
    defaultCount ((st.map clearFlag).map (setFlag pk))
      = (st.filter (fun c => c.id == pk)).length := by
  induction st with
  | nil => rfl
  | cons c cs ih =>
    rw [defaultCount] at ih ⊢
    rw [List.map_cons, List.map_cons, List.filter_cons, List.filter_cons,
      setFlag_clearFlag_is_default]
    by_cases h : c.id = pk <;>
      · simp only [List.map_map] at ih ⊢
        simp [h, ih]

/-- With database-unique ids, the rows matching a pk that occurs in the
table number exactly one, and zero when the pk is absent. -/
theorem nodup_filter_id_length (st : List Cashbook) (pk : Nat)
    (hids : (st.map Cashbook.id).Nodup) :
    (st.filter (fun c => c.id == pk)).length
      = if st.any (fun c => c.id == pk) then 1 else 0 := by
  induction st with
  | nil => rfl
  | cons c cs ih =>
    rw [List.map_cons, List.nodup_cons] at hids
    obtain ⟨h1, h2⟩ := hids
    by_cases h : c.id = pk
    · have hnone : cs.filter (fun x => x.id == pk) = [] := by
        rw [List.filter_eq_nil_iff]
        intro x hx
        simp only [beq_iff_eq]
        intro hxpk
        exact h1 (by
          rw [← h, ← hxpk] at *
          exact List.mem_map_of_mem Cashbook.id hx)
      simp [List.filter_cons, List.any_cons, h, hnone]
    · simp [List.filter_cons, List.any_cons, h, ih h2]

theorem clear_set_ids (st : List Cashbook) (pk : Nat) :
    ((st.map clearFlag).map (setFlag pk)).map Cashbook.id
      = st.map Cashbook.id := by
  induction st with
  | nil => rfl
  | cons c cs ih => simp [setFlag_clearFlag_id, ih]

theorem setDefaultOp_ids (st : List Cashbook) (pk : Nat) :
    (setDefaultOp st pk).map Cashbook.id = st.map Cashbook.id := by
  rw [setDefaultOp]
  split
  · exact clear_set_ids st pk
  · rfl

theorem setDefaultOp_count_le (st : List Cashbook) (pk : Nat)
    (hids : (st.map Cashbook.id).Nodup) (hcount : defaultCount st ≤ 1) :
    defaultCount (setDefaultOp st pk) ≤ 1 := by
  rw [setDefaultOp]
  split
  · rename_i hmem
    rw [clear_set_count, nodup_filter_id_length st pk hids, if_pos hmem]
  · exact hcount

theorem step_preserves (st : List Cashbook) (e : CashbookEvent)
    (hids : (st.map Cashbook.id).Nodup) (hcount : defaultCount st ≤ 1)
    (hc : ∀ c, e = CashbookEvent.create c → c.is_default = false) :
    ((stepCashbook st e).map Cashbook.id).Nodup ∧
      defaultCount (stepCashbook st e) ≤ 1 := by
  cases e with
  | create c =>
    have hcf : c.is_default = false := hc c rfl
    simp only [stepCashbook]
    rw [createOp]
    split
    · exact ⟨hids, hcount⟩
    · rename_i hany
      have hfresh : c.id ∉ st.map Cashbook.id := by
        intro hmem
        apply hany
        rcases List.mem_map.1 hmem with ⟨x, hx, hxid⟩
        simp only [List.any_eq_true]
        exact ⟨x, hx, by simpa using hxid⟩
      constructor
      · rw [List.map_append]
        simp [List.nodup_append, hids, hfresh]
      · simpa [defaultCount, List.filter_append, hcf] using hcount
  | setDefault pk =>
    simp only [stepCashbook]
    refine ⟨?_, setDefaultOp_count_le st pk hids hcount⟩
    rw [setDefaultOp_ids]
    exact hids

/-- Any sequence of creations that keep is_default false and of set-default
calls preserves both database-unique ids and the at-most-one-default
invariant. -/
theorem run_preserves (es : List CashbookEvent) :
    ∀ st : List Cashbook, (st.map Cashbook.id).Nodup → defaultCount st ≤ 1 →
      createsNonDefault es = true →
      defaultCount (runCashbook st es) ≤ 1 ∧
        ((runCashbook st es).map Cashbook.id).Nodup := by
  induction es with
  | nil =>
    intro st hids hcount _
    exact ⟨hcount, hids⟩
  | cons e es ih =>
    intro st hids hcount hcreate
    rw [createsNonDefault, List.all_cons, Bool.and_eq_true] at hcreate
    have hce : ∀ c, e = CashbookEvent.create c → c.is_default = false := by
      intro c hc
      subst hc
      simpa using hcreate.1
    have hstep := step_preserves st e hids hcount hce
    have hrec := ih (stepCashbook st e) hstep.1 hstep.2 hcreate.2
    simpa [runCashbook, List.foldl_cons] using hrec

/-- C4 (amended): when every creation keeps the model default
is_default = false, any sequence of creations and setDefault calls
preserves the at-most-one-default invariant; and a setDefault call whose
target exists in the business (with the database-unique ids) leaves exactly
one default cashbook. -/
theorem c4_default_uniqueness (st : List Cashbook) (es : List CashbookEvent)
    (hids : (st.map Cashbook.id).Nodup) (hcount : defaultCount st ≤ 1)
    (hcreate : createsNonDefault es = true) :
    (defaultCount (runCashbook st es) ≤ 1 ∧
      ((runCashbook st es).map Cashbook.id).Nodup) ∧
    (∀ pk, st.any (fun c => c.id == pk) = true →
      defaultCount (setDefaultOp st pk) = 1) := by
  constructor
  · have hrun := run_preserves es st hids hcount hcreate
    exact ⟨hrun.1, hrun.2⟩
  · intro pk hpk
    rw [setDefaultOp, if_pos hpk, clear_set_count,
      nodup_filter_id_length st pk hids, if_pos hpk]

/-- Witness for C4 (amended): a business holding a default and a non-default
cashbook, one fresh creation and one setDefault call. -/
theorem c4_default_uniqueness_witness :
    (defaultCount (runCashbook [⟨1, false⟩, ⟨2, true⟩]
        [CashbookEvent.create ⟨3, false⟩, CashbookEvent.setDefault 1]) ≤ 1 ∧
      ((runCashbook [⟨1, false⟩, ⟨2, true⟩]
        [CashbookEvent.create ⟨3, false⟩,
          CashbookEvent.setDefault 1]).map Cashbook.id).Nodup) ∧
    (∀ pk, ([⟨1, false⟩, ⟨2, true⟩] : List Cashbook).any
        (fun c => c.id == pk) = true →
      defaultCount (setDefaultOp [⟨1, false⟩, ⟨2, true⟩] pk) = 1) :=
  c4_default_uniqueness [⟨1, false⟩, ⟨2, true⟩]
    [CashbookEvent.create ⟨3, false⟩, CashbookEvent.setDefault 1]
    (by decide) (by decide) (by decide)

/-- A Business row, from models.py class Business. -/
structure Business where
  id : Nat
  name : String
  owner : Nat
deriving DecidableEq, Repr

/-- The caller, from the custom auth user of the users app: id, username and
full_name (empty string when unset, which is falsy in the source). -/
structure User where
  id : Nat
  username : String
  full_name : String
deriving DecidableEq, Repr

/-- A Cashbook as CashbookViewSet.perform_create saves it: name and
is_default come from the request body, the business is chosen by the view. -/
structure NewCashbook where
  name : String
  business : Nat
  is_default : Bool
deriving DecidableEq, Repr

/-- CashbookViewSet.perform_create (views.py lines 45-58): the body's
business reference is never read; the cashbook is saved into the first
business owned by the caller (Business.objects.filter(owner=user).first()),
and when the caller owns none, a business named after the caller
(full_name if non-empty, else username, suffixed with \x27s Business) is
created with a fresh id and used.  Returns the business table after the
call together with the saved cashbook. -/
def cashbookPerformCreate (businesses : List Business) (user : User)
    (freshBusinessId : Nat) (body_name : String) (_body_business : Nat)
    (body_is_default : Bool) : List Business × NewCashbook :=
  match businesses.find? (fun b => b.owner == user.id) with
  | some b => (businesses, ⟨body_name, b.id, body_is_default⟩)
  | none =>
    let business_name :=
      if user.full_name ≠ "" then user.full_name ++ "\x27s Business"
      else user.username ++ "\x27s Business"
    (businesses ++ [⟨freshBusinessId, business_name, user.id⟩],
      ⟨body_name, freshBusinessId, body_is_default⟩)

/-- C10: a cashbook create ignores the business reference in the request
body; it attaches the cashbook to the caller's first owned business when one
exists, leaving the business table unchanged, and otherwise appends a single
new business named after the caller and attaches the cashbook to it; in both
outcomes every pre-existing business row is exactly preserved. -/
theorem c10_cashbook_create_business (businesses : List Business) (user : User)
    (fresh : Nat) (nm : String) (bb : Nat) (bd : Bool) :
    (∀ bb2, cashbookPerformCreate businesses user fresh nm bb bd
        = cashbookPerformCreate businesses user fresh nm bb2 bd) ∧
    (∀ b, businesses.find? (fun x => x.owner == user.id) = some b →
      cashbookPerformCreate businesses user fresh nm bb bd
        = (businesses, ⟨nm, b.id, bd⟩)) ∧
    (businesses.find? (fun x => x.owner == user.id) = none →
      cashbookPerformCreate businesses user fresh nm bb bd
        = (businesses ++ [⟨fresh,
            (if user.full_name ≠ "" then user.full_name ++ "\x27s Business"
             else user.username ++ "\x27s Business"), user.id⟩],
           ⟨nm, fresh, bd⟩)) := by
  refine ⟨?_, ?_, ?_⟩
  · intro bb2
    unfold cashbookPerformCreate
    cases businesses.find? (fun b => b.owner == user.id) <;> rfl
  · intro b hb
    unfold cashbookPerformCreate
    rw [hb]
  · intro hn
    unfold cashbookPerformCreate
    rw [hn]

/-- Witness for C10: a caller owning no business creates a cashbook. -/
theorem c10_cashbook_create_business_witness :
    (∀ bb2, cashbookPerformCreate [] ⟨7, "ann", "Ann Lee"⟩ 42 "Main" 5 false
        = cashbookPerformCreate [] ⟨7, "ann", "Ann Lee"⟩ 42 "Main" bb2 false) ∧
    (∀ b, ([] : List Business).find?
        (fun x => x.owner == (7:Nat)) = some b →
      cashbookPerformCreate [] ⟨7, "ann", "Ann Lee"⟩ 42 "Main" 5 false
        = ([], ⟨"Main", b.id, false⟩)) ∧
    (([] : List Business).find? (fun x => x.owner == (7:Nat)) = none →
      cashbookPerformCreate [] ⟨7, "ann", "Ann Lee"⟩ 42 "Main" 5 false
        = ([] ++ [⟨42,
            (if "Ann Lee" ≠ "" then "Ann Lee" ++ "\x27s Business"
             else "ann" ++ "\x27s Business"), 7⟩],
           ⟨"Main", 42, false⟩)) :=
  c10_cashbook_create_business [] ⟨7, "ann", "Ann Lee"⟩ 42 "Main" 5 false

end CashbookApp
